import Mathlib

/-!
Verification of the AI Gym Trainer backend (`backend/main.py`) against its
natural-language specification.

The backend is a thin FastAPI service.  The parts the claims are about are:

* `calculate_macros` — pure macro arithmetic (main.py lines 66-70);
* `create_fallback_response` — the deterministic keyword-driven fallback
  advice generator (lines 227-304);
* the `/chat` endpoint — profile lookup, LLM call, output validation and
  fallback policy (lines 152-225);
* the `/macros/{user_id}` endpoint (lines 142-151).

External collaborators (the Supabase profile store, the Gemini LLM call and
the Python standard-library JSON parser) are modelled as oracle inputs:
`Except` values for the store and the LLM call, and a
`String → Option (List (String × JVal))` function for `json.loads`.  A
successful `json.loads` of a string that starts with the object-opening
brace always yields a JSON object, so the oracle returns the object's
key/value list or `none` for a parse failure.

Python floats are embedded as rationals, Python `round` (banker's
rounding) as an explicit half-even rounding on `ℚ`, and Python string
operations (`strip`, `replace`, `lower`, `startswith`, the substring
operator `in`) as executable functions on `List Char`.
-/

/-- The six ASCII whitespace characters stripped by Python `str.strip()`. -/
def pyIsSpace (c : Char) : Bool :=
  c == ' ' || c == '\t' || c == '\n' || c == '\r' || c == '\x0b' || c == '\x0c'

/-- Python `s.strip()`: drop whitespace from both ends. -/
def pyStrip (s : String) : String :=
  ⟨((s.data.dropWhile pyIsSpace).reverse.dropWhile pyIsSpace).reverse⟩

/-- Prefix test: `isPrefixList pat l` holds when `l` starts with `pat`. -/
def isPrefixList : List Char → List Char → Bool
  | [], _ => true
  | _ :: _, [] => false
  | a :: as, b :: bs => a == b && isPrefixList as bs

/-- Sublist test: `hasSubList pat l` holds when `pat` occurs as a
contiguous sublist of `l`.  This is Python's substring operator. -/
def hasSubList (pat : List Char) : List Char → Bool
  | [] => isPrefixList pat []
  | h :: t => isPrefixList pat (h :: t) || hasSubList pat t

/-- Python `pat in s` (substring containment). -/
def strContains (s pat : String) : Bool := hasSubList pat.data s.data

/-- Worker for `pyReplace`: a positive first argument means we are still
skipping over the tail of a match that was already consumed. -/
def replAux (pat rep : List Char) : Nat → List Char → List Char
  | _ + 1, [] => []
  | k + 1, _ :: t => replAux pat rep k t
  | 0, [] => []
  | 0, h :: t =>
    if isPrefixList pat (h :: t) then rep ++ replAux pat rep (pat.length - 1) t
    else h :: replAux pat rep 0 t

/-- Python `s.replace(pat, rep)` for a non-empty `pat`: replace every
non-overlapping occurrence, scanning left to right.  (The backend only
ever replaces non-empty code-fence markers, so the empty-pattern case is
guarded to the identity.) -/
def pyReplace (s pat rep : String) : String :=
  ⟨if pat.data.isEmpty then s.data else replAux pat.data rep.data 0 s.data⟩

/-- ASCII lowering of one character, as Python `str.lower()` acts on the
ASCII messages at issue. -/
def pyLowerChar (c : Char) : Char :=
  if 65 ≤ c.toNat ∧ c.toNat ≤ 90 then Char.ofNat (c.toNat + 32) else c

/-- Python `s.lower()`. -/
def pyLower (s : String) : String := ⟨s.data.map pyLowerChar⟩

/-- Python `s.startswith(pre)`. -/
def pyStartsWith (s pre : String) : Bool := isPrefixList pre.data s.data

/-- Round a rational to the nearest integer, ties to even: the rounding
used by Python 3's built-in `round`. -/
def roundHalfEven (x : ℚ) : ℤ :=
  let n := ⌊x⌋
  let r := x - n
  if r < 1 / 2 then n
  else if 1 / 2 < r then n + 1
  else if n % 2 = 0 then n else n + 1

/-- Python `round(x, 1)`. -/
def pyRound1 (x : ℚ) : ℚ := (roundHalfEven (x * 10) : ℤ) / 10

/-- Python `round(x)` (zero digits, returns an integer). -/
def pyRound0 (x : ℚ) : ℤ := roundHalfEven x

/-- The macro-target triple `{protein, carbs, fats}`. -/
structure Macros where
  protein : ℚ
  carbs : ℚ
  fats : ℚ
deriving DecidableEq

/-- main.py lines 66-70: `calculate_macros(weight_kg)`. -/
def calculate_macros (weight_kg : ℚ) : Macros :=
  { protein := pyRound1 (weight_kg * 2)
    carbs := pyRound1 (weight_kg * 3)
    fats := pyRound1 (weight_kg * 1) }

/-- A stored profile row (main.py `ProfileModel` / `profiles` table).  Only
`weight_kg` and `goal` are read on the chat and macros paths. -/
structure Profile where
  user_id : ℤ
  age : ℤ
  height_cm : ℚ
  weight_kg : ℚ
  sex : String
  activity_level : String
  goal : String

/-- The five-field advice payload shape every chat answer satisfies. -/
structure AdvicePayload where
  response : String
  advice : String
  workout_plan : List String
  nutrition_tips : String
  macros : Macros
deriving DecidableEq

/-- The four response/advice/plan/tips strings a fallback branch selects
before the shared five-field dictionary is assembled (main.py 235-296). -/
structure TemplateParts where
  response : String
  advice : String
  workout_plan : List String
  nutrition_tips : String
deriving DecidableEq

/-- The empty string. -/
def emptyS : String := ""

/-- The object-opening brace character tested by `answer.startswith` at
main.py line 202. -/
def braceS : String := "\x7b"

/-- The keyword whose substring match routes to the nutrition template. -/
def kwEat : String := "eat"

/-- The keyword whose substring match routes to the bulking template. -/
def kwGain : String := "gain"

def strengthKws : List String := ["workout", "exercise", "train", "gym"]

def dietKws : List String := ["diet", "food", "nutrition", kwEat]

def lossKws : List String := ["weight loss", "fat loss", "lose weight"]

def gainKws : List String := ["muscle", kwGain, "bulk", "size"]

/-- Python `any(word in u for word in kws)`. -/
def kwAny (kws : List String) (u : String) : Bool :=
  kws.any (fun k => strContains u k)

/-- main.py lines 235-246: the strength-training template. -/
def strengthTemplate (weight : ℚ) : TemplateParts :=
  { response := "Here\x27s a balanced workout plan for your fitness goals"
    advice := "Focus on compound exercises with proper form. Progressive overload is key for continuous improvement."
    workout_plan :=
      [ "Monday: Upper Body - Bench Press 3x8-10, Rows 3x8-10, Shoulder Press 3x10-12"
      , "Tuesday: Lower Body - Squats 3x8-10, Deadlifts 3x5-8, Lunges 3x12"
      , "Wednesday: Rest or Active Recovery"
      , "Thursday: Upper Body - Pull-ups 3xAMRAP, Dips 3x10-12, Bicep Curls 3x12"
      , "Friday: Lower Body - Leg Press 4x12, Leg Curls 4x12, Calf Raises 4x15"
      , "Weekend: Cardio and Mobility" ]
    nutrition_tips :=
      "Eat " ++ toString (pyRound0 (weight * 2)) ++
        "g protein daily. Time carbs around workouts. Stay hydrated with 3-4L water." }

/-- main.py lines 248-257: the nutrition template. -/
def nutritionTemplate (weight : ℚ) (goal : String) : TemplateParts :=
  { response := "Nutrition advice for your fitness journey"
    advice := "Focus on whole foods, adequate protein, and proper meal timing around workouts."
    workout_plan := ["Combine proper nutrition with consistent training for best results"]
    nutrition_tips :=
      "For " ++ goal ++ ":\n- Protein: " ++ toString (pyRound0 (weight * 2)) ++
        "g daily from chicken, fish, eggs, dairy\n- Carbs: " ++
        toString (pyRound0 (weight * 3)) ++
        "g from rice, potatoes, oats, fruits\n- Fats: " ++
        toString (pyRound0 (weight * 1)) ++
        "g from nuts, avocado, olive oil\n- Meal frequency: 4-6 meals daily\n- Hydration: 3-4 liters water minimum" }

/-- main.py lines 259-270: the cutting (weight-loss) template. -/
def cuttingTemplate (weight : ℚ) : TemplateParts :=
  { response := "Weight loss strategy with sustainable approach"
    advice := "Create a moderate calorie deficit through diet and exercise. Focus on protein to preserve muscle."
    workout_plan :=
      [ "Monday: HIIT Cardio - 30min interval training"
      , "Tuesday: Strength Training - Full body compound exercises"
      , "Wednesday: Steady State Cardio - 45min moderate pace"
      , "Thursday: Strength Training - Different exercises from Tuesday"
      , "Friday: Active Recovery - Walking, stretching, mobility"
      , "Weekend: Rest or light activity" ]
    nutrition_tips :=
      "Create 500-calorie deficit daily. Eat " ++ toString (pyRound0 (weight * 2)) ++
        "g protein. Focus on fiber-rich foods for satiety." }

/-- main.py lines 272-283: the bulking (muscle-gain) template.  The prose
uses the 2.2 protein multiplier, embedded as the rational 11/5. -/
def bulkingTemplate (weight : ℚ) : TemplateParts :=
  { response := "Muscle building program with progressive overload"
    advice := "Focus on compound lifts with progressive overload. Ensure calorie surplus with adequate protein."
    workout_plan :=
      [ "Monday: Chest & Triceps - Heavy pressing movements"
      , "Tuesday: Back & Biceps - Pulling movements"
      , "Wednesday: Legs & Core - Squats, deadlifts, accessories"
      , "Thursday: Shoulders & Arms - Overhead press and isolation"
      , "Friday: Weak Points - Address lagging muscle groups"
      , "Weekend: Rest and recovery" ]
    nutrition_tips :=
      "Eat 300-500 calorie surplus. Protein: " ++ toString (pyRound0 (weight * (11 / 5))) ++
        "g daily. Carbs around workouts for energy." }

/-- main.py lines 285-296: the generic balanced-fitness template. -/
def genericTemplate (weight : ℚ) : TemplateParts :=
  { response := "Comprehensive fitness guidance"
    advice := "Consistency in training and nutrition is the foundation of success. Focus on progressive improvement."
    workout_plan :=
      [ "Monday: Strength Training - Compound exercises 3-4 sets"
      , "Tuesday: Cardiovascular Training - 30-45 minutes"
      , "Wednesday: Active Recovery - Mobility and flexibility"
      , "Thursday: Hypertrophy Training - 8-12 rep range"
      , "Friday: Full Body Metabolic Conditioning"
      , "Weekend: Rest or recreational activities" ]
    nutrition_tips :=
      "Balanced macronutrients: Protein " ++ toString (pyRound0 (weight * 2)) ++
        "g, Carbs " ++ toString (pyRound0 (weight * 3)) ++ "g, Fats " ++
        toString (pyRound0 (weight * 1)) ++ "g daily" }

/-- main.py lines 235-296: the `if/elif/.../else` keyword dispatch over the
already-lower-cased message. -/
def dispatch (weight : ℚ) (goal : String) (user_lower : String) : TemplateParts :=
  if kwAny strengthKws user_lower then strengthTemplate weight
  else if kwAny dietKws user_lower then nutritionTemplate weight goal
  else if kwAny lossKws user_lower then cuttingTemplate weight
  else if kwAny gainKws user_lower then bulkingTemplate weight
  else genericTemplate weight

/-- main.py line 229: the weight is the profile weight_kg when a profile
is present, else 70. -/
def resolveWeight : Option Profile → ℚ
  | some p => p.weight_kg
  | none => 70

/-- main.py line 230: the goal is the profile goal when a profile is
present, else the General Fitness default. -/
def resolveGoal : Option Profile → String
  | some p => p.goal
  | none => "General Fitness"

/-- main.py lines 227-304: `create_fallback_response(profile, user_message)`. -/
def create_fallback_response (profile : Option Profile) (user_message : String) :
    AdvicePayload :=
  let weight := resolveWeight profile
  let parts := dispatch weight (resolveGoal profile) (pyLower user_message)
  { response := parts.response
    advice := parts.advice
    workout_plan := parts.workout_plan
    nutrition_tips := parts.nutrition_tips
    macros := calculate_macros weight }

/-- main.py lines 157-163: the payload the chat endpoint returns when the
user has no stored profile. -/
def noProfilePayload : AdvicePayload :=
  { response := "Please complete your profile first to receive personalized fitness advice."
    advice := "Your profile helps me understand your age, fitness level, goals, and body composition to provide customized plans."
    workout_plan := ["Complete profile setup to unlock personalized training program"]
    nutrition_tips := "Profile information is essential for creating diet plans based on your metabolic needs"
    macros := { protein := 0, carbs := 0, fats := 0 } }

/-- A JSON value, as produced by the external `json.loads`. -/
inductive JVal where
  | jnull : JVal
  | jbool : Bool → JVal
  | jnum : ℚ → JVal
  | jstr : String → JVal
  | jarr : List JVal → JVal
  | jobj : List (String × JVal) → JVal

/-- A parsed top-level JSON object: its key/value list in document order. -/
abbrev JDict := List (String × JVal)

/-- Python `key in parsed_dict`. -/
def hasKey (d : JDict) (k : String) : Bool := d.any (fun kv => kv.fst == k)

/-- main.py line 209: `required_fields`. -/
def requiredFields : List String :=
  ["response", "advice", "workout_plan", "nutrition_tips", "macros"]

/-- The JSON object a Python `AdvicePayload` dictionary literal denotes
(main.py lines 157-163 and 298-304 build exactly these five keys). -/
def payloadJson (p : AdvicePayload) : JDict :=
  [ ("response", JVal.jstr p.response)
  , ("advice", JVal.jstr p.advice)
  , ("workout_plan", JVal.jarr (p.workout_plan.map JVal.jstr))
  , ("nutrition_tips", JVal.jstr p.nutrition_tips)
  , ("macros", JVal.jobj
      [ ("protein", JVal.jnum p.macros.protein)
      , ("carbs", JVal.jnum p.macros.carbs)
      , ("fats", JVal.jnum p.macros.fats) ]) ]

/-- What the chat endpoint hands back in its HTTP 200 body: either the
parsed LLM object verbatim, or one of the backend's own dictionaries. -/
inductive ChatBody where
  | llmPayload : JDict → ChatBody
  | payload : AdvicePayload → ChatBody

/-- Key list of a chat body, for the five-field invariant. -/
def bodyHasKey : ChatBody → String → Bool
  | ChatBody.llmPayload d, k => hasKey d k
  | ChatBody.payload p, k => hasKey (payloadJson p) k

/-- An HTTP-level outcome of the chat endpoint: a 200 body, or a raised
`HTTPException` surfaced to the client. -/
inductive HttpResult where
  | ok : ChatBody → HttpResult
  | httpError : Nat → String → HttpResult

/-- main.py line 199: strip, remove the two code-fence markers, strip. -/
def cleanAnswer (raw : String) : String :=
  pyStrip (pyReplace (pyReplace (pyStrip raw) "```json" "") "```" "")

/-- main.py lines 152-225: the `/chat` endpoint.

* `store` — outcome of `get_profile` (`Except.error` = the Supabase call
  raised; `.ok none` = no row; `.ok (some p)` = the stored profile);
* `llm` — outcome of the Gemini call (`Except.error` = it raised;
  `.ok none` = falsy response object / missing `text` attribute;
  `.ok (some raw)` = it produced the text `raw`);
* `jsonLoads` — the standard-library JSON parser as an oracle;
* `message` — the user's free-text question.

The prompt built at lines 166-185 is passed only to the external LLM call
and cannot influence which branch runs, so it is not materialised here. -/
def chat (store : Except String (Option Profile))
    (llm : Except String (Option String))
    (jsonLoads : String → Option JDict) (message : String) : HttpResult :=
  match store with
  | Except.error _ => HttpResult.ok (ChatBody.payload (create_fallback_response none message))
  | Except.ok none => HttpResult.ok (ChatBody.payload noProfilePayload)
  | Except.ok (some profile) =>
    match llm with
    | Except.error _ =>
        HttpResult.ok (ChatBody.payload (create_fallback_response (some profile) message))
    | Except.ok none =>
        HttpResult.ok (ChatBody.payload (create_fallback_response (some profile) message))
    | Except.ok (some raw) =>
      if pyStrip raw = emptyS then
        HttpResult.ok (ChatBody.payload (create_fallback_response (some profile) message))
      else
        let answer := cleanAnswer raw
        if answer ≠ emptyS ∧ pyStartsWith answer braceS = false then
          HttpResult.ok (ChatBody.payload (create_fallback_response (some profile) message))
        else
          match jsonLoads answer with
          | some parsed =>
            if requiredFields.all (fun f => hasKey parsed f) then
              HttpResult.ok (ChatBody.llmPayload parsed)
            else
              HttpResult.ok (ChatBody.payload (create_fallback_response (some profile) message))
          | none =>
              HttpResult.ok (ChatBody.payload (create_fallback_response (some profile) message))

/-- A Python exception value: a raised `HTTPException(status, detail)` or
any other exception, carrying its `str(e)` rendering. -/
inductive PyExc where
  | http : Nat → String → PyExc
  | other : String → PyExc

/-- Python `str(e)`: FastAPI's `HTTPException` renders as
`"{status_code}: {detail}"`. -/
def strOfExc : PyExc → String
  | PyExc.http s d => toString s ++ ": " ++ d
  | PyExc.other m => m

/-- main.py lines 144-148, the body of the `try` in `/macros/{user_id}`:
look up the profile, raise `HTTPException(404)` when absent, otherwise
compute the macros from the stored weight. -/
def get_macros_body (store : Except String (Option Profile)) : Except PyExc Macros :=
  match store with
  | Except.error m => Except.error (PyExc.other m)
  | Except.ok none => Except.error (PyExc.http 404 "Profile not found")
  | Except.ok (some p) => Except.ok (calculate_macros p.weight_kg)

/-- main.py lines 142-151: the `/macros/{user_id}` endpoint.  The
`except Exception` clause catches every exception raised in the body —
including the endpoint's own `HTTPException(404)` — and re-raises
`HTTPException(500, "Error calculating macros: " + str(e))`. -/
def get_macros_endpoint (store : Except String (Option Profile)) : Except PyExc Macros :=
  match get_macros_body store with
  | Except.ok m => Except.ok m
  | Except.error e =>
      Except.error (PyExc.http 500 ("Error calculating macros: " ++ strOfExc e))

/-- Concrete profile with `weight_kg = 80`, as in the spec's end-to-end
macros example. -/
def profile80 : Profile :=
  { user_id := 1, age := 30, height_cm := 180, weight_kg := 80
    sex := "male", activity_level := "moderate", goal := "Muscle Gain" }

/-- The spec's keyword-priority test message about losing weight while
building muscle. -/
def msgLose : String := "I want to lose weight and build muscle"

/-- The spec's keyword-priority test message about a gym workout. -/
def msgGym : String := "best gym workout"

/-- A message containing no dispatch keyword at all. -/
def msgHello : String := "hello"

/-- A message whose only keyword hit is the sequence of kwEat inside the
word at its end. -/
def msgGreat : String := "this is great"

/-- A message whose only keyword hit is the sequence of kwGain inside its
final word. -/
def msgAgain : String := "will it happen again"

/-- The spec's validator-acceptance example: a complete five-key JSON
object as LLM reply text. -/
def rawGood : String :=
  "\x7b\"response\":\"r\",\"advice\":\"a\",\"workout_plan\":[\"x\"],\"nutrition_tips\":\"n\",\"macros\":\x7b\"protein\":1,\"carbs\":2,\"fats\":3\x7d\x7d"

def sR : String := "r"

def sA : String := "a"

def sX : String := "x"

def sN : String := "n"

/-- The parse of rawGood. -/
def dGood : JDict :=
  [ ("response", JVal.jstr sR)
  , ("advice", JVal.jstr sA)
  , ("workout_plan", JVal.jarr [JVal.jstr sX])
  , ("nutrition_tips", JVal.jstr sN)
  , ("macros", JVal.jobj
      [ ("protein", JVal.jnum 1), ("carbs", JVal.jnum 2), ("fats", JVal.jnum 3) ]) ]

/-- A JSON-parser oracle that parses exactly rawGood, to dGood. -/
def jlGood : String → Option JDict :=
  fun s => if s = rawGood then some dGood else none

/-- The detail string the macros endpoint actually sends when no profile
exists: the 404 text swallowed into a 500. -/
def macros500Detail : String := "Error calculating macros: 404: Profile not found"

/-! ## Helper lemmas -/

theorem dispatch_strength (w : ℚ) (g u : String) (h : kwAny strengthKws u = true) :
    dispatch w g u = strengthTemplate w := by
  simp [dispatch, h]

theorem dispatch_nutrition (w : ℚ) (g u : String) (h1 : kwAny strengthKws u = false)
    (h2 : kwAny dietKws u = true) : dispatch w g u = nutritionTemplate w g := by
  simp [dispatch, h1, h2]

theorem dispatch_cutting (w : ℚ) (g u : String) (h1 : kwAny strengthKws u = false)
    (h2 : kwAny dietKws u = false) (h3 : kwAny lossKws u = true) :
    dispatch w g u = cuttingTemplate w := by
  simp [dispatch, h1, h2, h3]

theorem dispatch_bulking (w : ℚ) (g u : String) (h1 : kwAny strengthKws u = false)
    (h2 : kwAny dietKws u = false) (h3 : kwAny lossKws u = false)
    (h4 : kwAny gainKws u = true) : dispatch w g u = bulkingTemplate w := by
  simp [dispatch, h1, h2, h3, h4]

theorem dispatch_generic (w : ℚ) (g u : String) (h1 : kwAny strengthKws u = false)
    (h2 : kwAny dietKws u = false) (h3 : kwAny lossKws u = false)
    (h4 : kwAny gainKws u = false) : dispatch w g u = genericTemplate w := by
  simp [dispatch, h1, h2, h3, h4]

theorem dispatch_cases (w : ℚ) (g u : String) :
    dispatch w g u = strengthTemplate w ∨ dispatch w g u = nutritionTemplate w g ∨
    dispatch w g u = cuttingTemplate w ∨ dispatch w g u = bulkingTemplate w ∨
    dispatch w g u = genericTemplate w := by
  unfold dispatch
  split
  · exact Or.inl rfl
  split
  · exact Or.inr (Or.inl rfl)
  split
  · exact Or.inr (Or.inr (Or.inl rfl))
  split
  · exact Or.inr (Or.inr (Or.inr (Or.inl rfl)))
  · exact Or.inr (Or.inr (Or.inr (Or.inr rfl)))

theorem fallback_keys (p : AdvicePayload) :
    requiredFields.all (bodyHasKey (ChatBody.payload p)) = true := rfl

theorem fallback_key_list (p : AdvicePayload) :
    (payloadJson p).map Prod.fst = requiredFields := rfl

theorem eat_in_diet (u : String) (h : strContains u kwEat = true) :
    kwAny dietKws u = true := by
  simp [kwAny, dietKws, List.any, h]

theorem gain_in_gain (u : String) (h : strContains u kwGain = true) :
    kwAny gainKws u = true := by
  simp [kwAny, gainKws, List.any, h]

theorem cleanAnswer_of_strip_empty (raw : String) (h : pyStrip raw = emptyS) :
    cleanAnswer raw = emptyS := by
  unfold cleanAnswer
  rw [h]
  rfl

theorem fallback_plan_nonempty (pOpt : Option Profile) (msg : String) :
    (create_fallback_response pOpt msg).workout_plan.isEmpty = false := by
  have h : (create_fallback_response pOpt msg).workout_plan =
      (dispatch (resolveWeight pOpt) (resolveGoal pOpt) (pyLower msg)).workout_plan := rfl
  rw [h]
  rcases dispatch_cases (resolveWeight pOpt) (resolveGoal pOpt) (pyLower msg) with
    hd | hd | hd | hd | hd <;> rw [hd] <;> rfl

theorem fallback_response_cases (pOpt : Option Profile) (msg : String) :
    (create_fallback_response pOpt msg).response = (strengthTemplate 70).response ∨
    (create_fallback_response pOpt msg).response = (nutritionTemplate 70 emptyS).response ∨
    (create_fallback_response pOpt msg).response = (cuttingTemplate 70).response ∨
    (create_fallback_response pOpt msg).response = (bulkingTemplate 70).response ∨
    (create_fallback_response pOpt msg).response = (genericTemplate 70).response := by
  have h : (create_fallback_response pOpt msg).response =
      (dispatch (resolveWeight pOpt) (resolveGoal pOpt) (pyLower msg)).response := rfl
  rw [h]
  rcases dispatch_cases (resolveWeight pOpt) (resolveGoal pOpt) (pyLower msg) with
    hd | hd | hd | hd | hd <;> rw [hd]
  · exact Or.inl rfl
  · exact Or.inr (Or.inl rfl)
  · exact Or.inr (Or.inr (Or.inl rfl))
  · exact Or.inr (Or.inr (Or.inr (Or.inl rfl)))
  · exact Or.inr (Or.inr (Or.inr (Or.inr rfl)))

theorem fallback_response_ne_noProfile (pOpt : Option Profile) (msg : String) :
    decide ((create_fallback_response pOpt msg).response = noProfilePayload.response)
      = false := by
  rcases fallback_response_cases pOpt msg with h | h | h | h | h <;> rw [h] <;> rfl

/-! ## Claim theorems -/

/-- C2: the Fallback Advice Generator is total: for every
(profile-or-none, message) pair it returns a payload carrying exactly the
five required fields, with a non-empty workout plan, and with a macros
field equal to the Macro Calculator applied to the resolved weight (the
profile's weight if present, else 70), on every template path. -/
theorem fallback_generator_total (pOpt : Option Profile) (msg : String) :
    (payloadJson (create_fallback_response pOpt msg)).map Prod.fst = requiredFields ∧
    (create_fallback_response pOpt msg).workout_plan.isEmpty = false ∧
    (create_fallback_response pOpt msg).macros = calculate_macros (resolveWeight pOpt) :=
  ⟨fallback_key_list _, fallback_plan_nonempty pOpt msg, rfl⟩

/-- C3: the fallback generator lower-cases the message and tests the five
keyword sets in fixed priority order, first match winning: strength, then
nutrition, then cutting, then bulking, then generic; in particular the
lose-weight-and-build-muscle message selects the cutting template and the
gym-workout message selects the strength template. -/
theorem fallback_keyword_priority (w : ℚ) (g msg : String) :
    (kwAny strengthKws (pyLower msg) = true →
      dispatch w g (pyLower msg) = strengthTemplate w) ∧
    (kwAny strengthKws (pyLower msg) = false → kwAny dietKws (pyLower msg) = true →
      dispatch w g (pyLower msg) = nutritionTemplate w g) ∧
    (kwAny strengthKws (pyLower msg) = false → kwAny dietKws (pyLower msg) = false →
      kwAny lossKws (pyLower msg) = true →
      dispatch w g (pyLower msg) = cuttingTemplate w) ∧
    (kwAny strengthKws (pyLower msg) = false → kwAny dietKws (pyLower msg) = false →
      kwAny lossKws (pyLower msg) = false → kwAny gainKws (pyLower msg) = true →
      dispatch w g (pyLower msg) = bulkingTemplate w) ∧
    (kwAny strengthKws (pyLower msg) = false → kwAny dietKws (pyLower msg) = false →
      kwAny lossKws (pyLower msg) = false → kwAny gainKws (pyLower msg) = false →
      dispatch w g (pyLower msg) = genericTemplate w) ∧
    dispatch w g (pyLower msgLose) = cuttingTemplate w ∧
    dispatch w g (pyLower msgGym) = strengthTemplate w ∧
    (∀ pOpt : Option Profile,
      (create_fallback_response pOpt msgLose).response = (cuttingTemplate w).response ∧
      (create_fallback_response pOpt msgGym).response = (strengthTemplate w).response) := by
  refine ⟨dispatch_strength w g _, dispatch_nutrition w g _, dispatch_cutting w g _,
    dispatch_bulking w g _, dispatch_generic w g _, ?_, ?_, ?_⟩
  · exact dispatch_cutting w g _ (by decide) (by decide) (by decide)
  · exact dispatch_strength w g _ (by decide)
  · intro pOpt
    constructor
    · have h : (create_fallback_response pOpt msgLose).response =
          (dispatch (resolveWeight pOpt) (resolveGoal pOpt) (pyLower msgLose)).response := rfl
      rw [h, dispatch_cutting _ _ _ (by decide) (by decide) (by decide)]
      rfl
    · have h : (create_fallback_response pOpt msgGym).response =
          (dispatch (resolveWeight pOpt) (resolveGoal pOpt) (pyLower msgGym)).response := rfl
      rw [h, dispatch_strength _ _ _ (by decide)]
      rfl

/-- C3 witness: the priority implications applied at weight 70, empty goal
string, and the two concrete spec messages. -/
theorem fallback_keyword_priority_witness :
    dispatch 70 emptyS (pyLower msgLose) = cuttingTemplate 70 ∧
    dispatch 70 emptyS (pyLower msgGym) = strengthTemplate 70 :=
  ⟨(fallback_keyword_priority 70 emptyS msgLose).2.2.1 (by decide) (by decide) (by decide),
   (fallback_keyword_priority 70 emptyS msgGym).1 (by decide)⟩

/-- C10: fallback keyword dispatch is substring containment on the
lower-cased message, not whole-word matching: any message containing the
letter sequence of kwEat with no strength keyword takes the nutrition
template, and any message containing the sequence of kwGain with no
higher-priority keyword takes the bulking template; concretely so for the
messages msgGreat and msgAgain, whose only hits sit inside longer words. -/
theorem fallback_substring_matching (w : ℚ) (g msg : String) :
    (strContains (pyLower msg) kwEat = true → kwAny strengthKws (pyLower msg) = false →
      dispatch w g (pyLower msg) = nutritionTemplate w g) ∧
    (strContains (pyLower msg) kwGain = true → kwAny strengthKws (pyLower msg) = false →
      kwAny dietKws (pyLower msg) = false → kwAny lossKws (pyLower msg) = false →
      dispatch w g (pyLower msg) = bulkingTemplate w) ∧
    (create_fallback_response none msgGreat).response = (nutritionTemplate w g).response ∧
    (create_fallback_response none msgAgain).response = (bulkingTemplate w).response := by
  refine ⟨fun he h1 => dispatch_nutrition w g _ h1 (eat_in_diet _ he),
    fun hg h1 h2 h3 => dispatch_bulking w g _ h1 h2 h3 (gain_in_gain _ hg), ?_, ?_⟩
  · have h : (create_fallback_response none msgGreat).response =
        (dispatch 70 (resolveGoal none) (pyLower msgGreat)).response := rfl
    rw [h, dispatch_nutrition _ _ _ (by decide) (by decide)]
    rfl
  · have h : (create_fallback_response none msgAgain).response =
        (dispatch 70 (resolveGoal none) (pyLower msgAgain)).response := rfl
    rw [h, dispatch_bulking _ _ _ (by decide) (by decide) (by decide) (by decide)]
    rfl

/-- C10 witness: the two substring implications applied to the concrete
messages whose keyword hits sit inside the words at their ends. -/
theorem fallback_substring_matching_witness :
    dispatch 70 emptyS (pyLower msgGreat) = nutritionTemplate 70 emptyS ∧
    dispatch 70 emptyS (pyLower msgAgain) = bulkingTemplate 70 :=
  ⟨(fallback_substring_matching 70 emptyS msgGreat).1 (by decide) (by decide),
   (fallback_substring_matching 70 emptyS msgAgain).2.1 (by decide) (by decide)
     (by decide) (by decide)⟩

/-- C6: for a user with no stored profile, whatever the LLM oracle and
parser would do, the chat endpoint answers the dedicated
profile-incomplete payload, whose macros are all zero and whose response
line no fallback keyword template ever produces. -/
theorem chat_no_profile (llm : Except String (Option String))
    (jl : String → Option JDict) (msg : String) :
    chat (Except.ok none) llm jl msg = HttpResult.ok (ChatBody.payload noProfilePayload) ∧
    noProfilePayload.macros = { protein := 0, carbs := 0, fats := 0 } ∧
    ∀ (pOpt : Option Profile) (m : String),
      decide ((create_fallback_response pOpt m).response = noProfilePayload.response)
        = false :=
  ⟨rfl, rfl, fun pOpt m => fallback_response_ne_noProfile pOpt m⟩

/-- C7 counterexample: called directly with no profile and the message
msgHello, the fallback generator does not return the profile-incomplete
payload — it returns the generic keyword template (with the default
weight 70), whose response line differs from the profile-incomplete
one. -/
theorem fallback_none_counterexample :
    (create_fallback_response none msgHello).response = (genericTemplate 70).response ∧
    decide ((create_fallback_response none msgHello).response
        = noProfilePayload.response) = false := by
  constructor
  · have h : (create_fallback_response none msgHello).response =
        (dispatch 70 (resolveGoal none) (pyLower msgHello)).response := rfl
    rw [h, dispatch_generic _ _ _ (by decide) (by decide) (by decide) (by decide)]
  · exact fallback_response_ne_noProfile none msgHello

/-- C7 amended: when the fallback generator receives no profile it does
not emit the profile-incomplete payload; it resolves weight 70 and
performs the ordinary keyword dispatch, so its macros equal the Macro
Calculator at 70 and its response is one of the five template responses,
never the profile-incomplete one.  The distinct please-complete-your-
profile payload is instead produced by the chat endpoint itself when the
profile lookup finds no row, before the generator is ever reached. -/
theorem fallback_none_is_keyword_dispatch (msg : String)
    (llm : Except String (Option String)) (jl : String → Option JDict) :
    (create_fallback_response none msg).macros = calculate_macros 70 ∧
    ((create_fallback_response none msg).response = (strengthTemplate 70).response ∨
     (create_fallback_response none msg).response = (nutritionTemplate 70 emptyS).response ∨
     (create_fallback_response none msg).response = (cuttingTemplate 70).response ∨
     (create_fallback_response none msg).response = (bulkingTemplate 70).response ∨
     (create_fallback_response none msg).response = (genericTemplate 70).response) ∧
    decide ((create_fallback_response none msg).response = noProfilePayload.response)
      = false ∧
    chat (Except.ok none) llm jl msg = HttpResult.ok (ChatBody.payload noProfilePayload) :=
  ⟨rfl, fallback_response_cases none msg, fallback_response_ne_noProfile none msg, rfl⟩

/-- C8: what the macros endpoint does at the failing input.  When no
profile exists the body raises HTTPException(404, ...) at main.py line
147, but the surrounding except-clause at line 150 catches it and
re-raises status 500 with the 404 text embedded in the detail string, so
the claimed 404 never reaches the client; with a stored profile the
endpoint returns the Macro Calculator of the stored weight. -/
theorem get_macros_no_profile_is_500 :
    get_macros_endpoint (Except.ok none) =
      Except.error (PyExc.http 500 macros500Detail) ∧
    ∀ p : Profile,
      get_macros_endpoint (Except.ok (some p)) = Except.ok (calculate_macros p.weight_kg) :=
  ⟨rfl, fun _ => rfl⟩

/-- C9: for every positive weight the Macro Calculator returns exactly
the one-decimal roundings of twice, three times and once the weight; and
with the stored profile of weight 80 the macros endpoint yields protein
160, carbs 240, fats 80. -/
theorem macro_calculator_formula :
    (∀ w : ℚ, 0 < w →
      calculate_macros w =
        { protein := pyRound1 (2 * w), carbs := pyRound1 (3 * w),
          fats := pyRound1 (1 * w) }) ∧
    get_macros_endpoint (Except.ok (some profile80)) =
      Except.ok { protein := 160, carbs := 240, fats := 80 } := by
  constructor
  · intro w _
    simp [calculate_macros, mul_comm]
  · have h : get_macros_endpoint (Except.ok (some profile80)) =
        Except.ok (calculate_macros 80) := rfl
    rw [h]
    norm_num [calculate_macros, pyRound1, roundHalfEven]

/-- C9 witness: the formula applied at the concrete positive weight 80. -/
theorem macro_calculator_formula_witness :
    calculate_macros 80 =
      { protein := pyRound1 (2 * 80), carbs := pyRound1 (3 * 80),
        fats := pyRound1 (1 * 80) } :=
  macro_calculator_formula.1 80 (by simp)

/-- Unfolding of the chat endpoint on the LLM-text path. -/
theorem chat_raw_eq (p : Profile) (jl : String → Option JDict) (msg raw : String) :
    chat (Except.ok (some p)) (Except.ok (some raw)) jl msg =
      if pyStrip raw = emptyS then
        HttpResult.ok (ChatBody.payload (create_fallback_response (some p) msg))
      else if cleanAnswer raw ≠ emptyS ∧ pyStartsWith (cleanAnswer raw) braceS = false then
        HttpResult.ok (ChatBody.payload (create_fallback_response (some p) msg))
      else
        match jl (cleanAnswer raw) with
        | some parsed =>
          if requiredFields.all (fun f => hasKey parsed f) then
            HttpResult.ok (ChatBody.llmPayload parsed)
          else HttpResult.ok (ChatBody.payload (create_fallback_response (some p) msg))
        | none =>
            HttpResult.ok (ChatBody.payload (create_fallback_response (some p) msg)) := rfl

/-- Every chat outcome is a 200 with either a validated LLM object, the
profile-incomplete payload, or a fallback payload. -/
theorem chat_result_cases (store : Except String (Option Profile))
    (llm : Except String (Option String)) (jl : String → Option JDict) (msg : String) :
    (∃ d, chat store llm jl msg = HttpResult.ok (ChatBody.llmPayload d) ∧
      requiredFields.all (fun f => hasKey d f) = true) ∨
    chat store llm jl msg = HttpResult.ok (ChatBody.payload noProfilePayload) ∨
    (∃ pOpt, chat store llm jl msg =
      HttpResult.ok (ChatBody.payload (create_fallback_response pOpt msg))) := by
  cases store with
  | error e => exact Or.inr (Or.inr ⟨none, rfl⟩)
  | ok op =>
    cases op with
    | none => exact Or.inr (Or.inl rfl)
    | some p =>
      cases llm with
      | error e => exact Or.inr (Or.inr ⟨some p, rfl⟩)
      | ok ot =>
        cases ot with
        | none => exact Or.inr (Or.inr ⟨some p, rfl⟩)
        | some raw =>
          rw [chat_raw_eq]
          by_cases hs : pyStrip raw = emptyS
          · rw [if_pos hs]
            exact Or.inr (Or.inr ⟨some p, rfl⟩)
          · rw [if_neg hs]
            by_cases hb : cleanAnswer raw ≠ emptyS ∧
                pyStartsWith (cleanAnswer raw) braceS = false
            · rw [if_pos hb]
              exact Or.inr (Or.inr ⟨some p, rfl⟩)
            · rw [if_neg hb]
              rcases hjld : jl (cleanAnswer raw) with _ | d'
              · simp only [hjld]
                exact Or.inr (Or.inr ⟨some p, rfl⟩)
              · simp only [hjld]
                by_cases hk : requiredFields.all (fun f => hasKey d' f) = true
                · rw [if_pos hk]
                  exact Or.inl ⟨d', rfl, hk⟩
                · rw [if_neg hk]
                  exact Or.inr (Or.inr ⟨some p, rfl⟩)

/-- C1: with a stored profile, the chat endpoint returns the parsed LLM
object unchanged exactly when the cleaned reply text is non-empty, starts
with the object-opening brace, parses, and carries all five required
keys; a raised call, an absent or empty text, and every validation
failure instead yield the fallback generator's payload. -/
theorem chat_validator (p : Profile) (jl : String → Option JDict) (msg raw : String)
    (hjl : jl emptyS = none) :
    (∀ e : String, chat (Except.ok (some p)) (Except.error e) jl msg =
        HttpResult.ok (ChatBody.payload (create_fallback_response (some p) msg))) ∧
    chat (Except.ok (some p)) (Except.ok none) jl msg =
        HttpResult.ok (ChatBody.payload (create_fallback_response (some p) msg)) ∧
    (∀ d : JDict,
      chat (Except.ok (some p)) (Except.ok (some raw)) jl msg =
          HttpResult.ok (ChatBody.llmPayload d) ↔
        (cleanAnswer raw ≠ emptyS ∧ pyStartsWith (cleanAnswer raw) braceS = true ∧
         jl (cleanAnswer raw) = some d ∧
         requiredFields.all (fun f => hasKey d f) = true)) ∧
    ((¬ ∃ d : JDict, cleanAnswer raw ≠ emptyS ∧
        pyStartsWith (cleanAnswer raw) braceS = true ∧ jl (cleanAnswer raw) = some d ∧
        requiredFields.all (fun f => hasKey d f) = true) →
      chat (Except.ok (some p)) (Except.ok (some raw)) jl msg =
        HttpResult.ok (ChatBody.payload (create_fallback_response (some p) msg))) := by
  refine ⟨fun e => rfl, rfl, ?_, ?_⟩
  · intro d
    rw [chat_raw_eq]
    by_cases hs : pyStrip raw = emptyS
    · rw [if_pos hs]
      have hca := cleanAnswer_of_strip_empty raw hs
      apply iff_of_false
      · simp
      · rintro ⟨h1, _, _, _⟩
        exact h1 hca
    · rw [if_neg hs]
      by_cases hb : cleanAnswer raw ≠ emptyS ∧ pyStartsWith (cleanAnswer raw) braceS = false
      · rw [if_pos hb]
        apply iff_of_false
        · simp
        · rintro ⟨_, h2, _, _⟩
          rw [hb.2] at h2
          exact Bool.false_ne_true h2
      · rw [if_neg hb]
        push_neg at hb
        rcases hjld : jl (cleanAnswer raw) with _ | d'
        · simp only [hjld]
          apply iff_of_false
          · simp
          · rintro ⟨_, _, h3, _⟩
            exact Option.noConfusion h3
        · simp only [hjld]
          have hne : cleanAnswer raw ≠ emptyS := by
            intro hq
            rw [hq, hjl] at hjld
            exact Option.noConfusion hjld
          have hst : pyStartsWith (cleanAnswer raw) braceS = true :=
            Bool.ne_false_iff.mp (hb hne)
          by_cases hk : requiredFields.all (fun f => hasKey d' f) = true
          · rw [if_pos hk]
            constructor
            · intro h
              have hd : d' = d := by
                injection h with h'
                injection h' with h''
              subst hd
              exact ⟨hne, hst, rfl, hk⟩
            · rintro ⟨_, _, h3, _⟩
              injection h3 with h3'
              rw [h3']
          · rw [if_neg hk]
            apply iff_of_false
            · simp
            · rintro ⟨_, _, h3, h4⟩
              injection h3 with h3'
              rw [← h3'] at h4
              exact hk h4
  · intro hno
    rw [chat_raw_eq]
    by_cases hs : pyStrip raw = emptyS
    · rw [if_pos hs]
    · rw [if_neg hs]
      by_cases hb : cleanAnswer raw ≠ emptyS ∧ pyStartsWith (cleanAnswer raw) braceS = false
      · rw [if_pos hb]
      · rw [if_neg hb]
        push_neg at hb
        rcases hjld : jl (cleanAnswer raw) with _ | d'
        · simp only [hjld]
        · simp only [hjld]
          have hne : cleanAnswer raw ≠ emptyS := by
            intro hq
            rw [hq, hjl] at hjld
            exact Option.noConfusion hjld
          have hst : pyStartsWith (cleanAnswer raw) braceS = true :=
            Bool.ne_false_iff.mp (hb hne)
          by_cases hk : requiredFields.all (fun f => hasKey d' f) = true
          · exact absurd ⟨d', hne, hst, hjld, hk⟩ hno
          · rw [if_neg hk]

/-- C1 witness: the spec's acceptance example — a complete five-key JSON
object — is returned verbatim by the chat endpoint. -/
theorem chat_validator_witness :
    chat (Except.ok (some profile80)) (Except.ok (some rawGood)) jlGood msgHello =
      HttpResult.ok (ChatBody.llmPayload dGood) :=
  ((chat_validator profile80 jlGood msgHello rawGood rfl).2.2.1 dGood).mpr
    ⟨by decide, by decide, rfl, rfl⟩

/-- C4: the chat endpoint never surfaces an HTTP error: for every store
outcome, LLM outcome, parser behaviour and message it answers 200 with a
body that is either a validated LLM object, the profile-incomplete
payload, or the deterministic fallback payload. -/
theorem chat_never_http_error (store : Except String (Option Profile))
    (llm : Except String (Option String)) (jl : String → Option JDict) (msg : String) :
    (∃ b, chat store llm jl msg = HttpResult.ok b) ∧
    ((∃ d, chat store llm jl msg = HttpResult.ok (ChatBody.llmPayload d)) ∨
     chat store llm jl msg = HttpResult.ok (ChatBody.payload noProfilePayload) ∨
     ∃ pOpt, chat store llm jl msg =
        HttpResult.ok (ChatBody.payload (create_fallback_response pOpt msg))) := by
  rcases chat_result_cases store llm jl msg with ⟨d, hd, _⟩ | h | ⟨pOpt, h⟩
  · exact ⟨⟨_, hd⟩, Or.inl ⟨d, hd⟩⟩
  · exact ⟨⟨_, h⟩, Or.inr (Or.inl h)⟩
  · exact ⟨⟨_, h⟩, Or.inr (Or.inr ⟨pOpt, h⟩)⟩

/-- C5: every body the chat endpoint returns — profile-incomplete,
validated LLM object, or fallback — carries all five required fields. -/
theorem chat_all_five_fields (store : Except String (Option Profile))
    (llm : Except String (Option String)) (jl : String → Option JDict) (msg : String) :
    ∃ b, chat store llm jl msg = HttpResult.ok b ∧
      requiredFields.all (bodyHasKey b) = true := by
  rcases chat_result_cases store llm jl msg with ⟨d, hd, hk⟩ | h | ⟨pOpt, h⟩
  · exact ⟨_, hd, hk⟩
  · exact ⟨_, h, fallback_keys noProfilePayload⟩
  · exact ⟨_, h, fallback_keys _⟩
